import Mathlib

/-!
# HelifeNet: `Net.hpp`

A shallow embedding of the socket wrapper (`Socket`) and the TCP listening
socket (`Tcp`) of `Net.hpp`, for the Linux branch of the header's platform
macros.  System calls go through a `Platform` record (an arbitrary, stateful
operating system), and every call made is written to an event log together
with the value the platform returned, so that the order of calls, their
arguments and the number of `close` calls are all observable.

Conventions:
* `int` values are `Int`; `uint16_t` / `uint32_t` values are `Nat` (with the
  range as a hypothesis where it matters);
* a constructor that throws returns `Except.error`, and the events of the
  stack unwinding (destruction of the members already built) are part of the
  constructor's log;
* allocation failure of the 8193-byte message buffer is not modelled; the
  contents of that buffer when nothing has been written to it are whatever the
  platform says they are (`Platform.uninitialised`).
-/

namespace hnet

/-! ## Platform constants (Linux values of the libc macros the header uses) -/

/-- Macro `HELIFE_NET_INVALID_SOCKET` on Linux / macOS: `(-1)`. -/
def HELIFE_NET_INVALID_SOCKET : Int := -1

/-- Macro `HELIFE_NET_SOCKET_ERROR` on Linux / macOS: `(-1)`. -/
def HELIFE_NET_SOCKET_ERROR : Int := -1

/-- Macro `HELIFE_NET_ERROR_MAX_SIZE`. -/
def HELIFE_NET_ERROR_MAX_SIZE : Nat := 8192

/-- The `enum SocketDomain`. -/
inductive SocketDomain where
  | LocalCommunication
  | Ipv4
  | Ipv6
  | NetLink
  | Packet
  deriving DecidableEq, Repr

/-- Enumerator values of `SocketDomain`: `AF_LOCAL`, `AF_INET`, `AF_INET6`,
`AF_NETLINK`, `AF_PACKET` as defined by the Linux headers. -/
def SocketDomain.toInt : SocketDomain → Int
  | .LocalCommunication => 1
  | .Ipv4 => 2
  | .Ipv6 => 10
  | .NetLink => 16
  | .Packet => 17

/-- The `enum SocketType`. -/
inductive SocketType where
  | Stream
  | Datagrams
  | Raw
  deriving DecidableEq, Repr

/-- Enumerator values of `SocketType`: `SOCK_STREAM`, `SOCK_DGRAM`,
`SOCK_RAW`. -/
def SocketType.toInt : SocketType → Int
  | .Stream => 1
  | .Datagrams => 2
  | .Raw => 3

/-- The `enum SocketProtocol`, whose only enumerator is `Default = 0`. -/
inductive SocketProtocol where
  | Default
  deriving DecidableEq, Repr

/-- Enumerator values of `SocketProtocol`. -/
def SocketProtocol.toInt : SocketProtocol → Int
  | .Default => 0

/-! ## Errors -/

/-- The exception classes of the header (`Error` and its subclasses). -/
inductive ErrorKind where
  | Error
  | SocketError
  | SetupError
  | InvalidIp
  | BindError
  | ListenError
  deriving DecidableEq, Repr

/-- A thrown exception: its dynamic class and the message `what()` returns. -/
structure Exception where
  kind : ErrorKind
  what : String
  deriving DecidableEq, Repr

/-! ## The platform and the event log -/

/-- The fields of `struct sockaddr_in` the constructor writes. -/
structure SockaddrIn where
  sin_family : Int
  sin_port : Nat
  s_addr : Nat
  deriving DecidableEq, Repr

/-- The value of `sizeof(struct sockaddr_in)`. -/
def sizeofSockaddrIn : Nat := 16

/-- One platform call, with its arguments and the value it returned. -/
inductive Event where
  | socket (domain type protocol : Int) (ret : Int)
  | inet_addr (cp : String) (ret : Nat)
  | bind (fd : Int) (addr : SockaddrIn) (len : Nat) (ret : Int)
  | listen (fd : Int) (backlog : Int) (ret : Int)
  | getLastError (buflen : Nat) (stored : Option String)
  | close (fd : Int)
  deriving DecidableEq, Repr

/-- An operating system with state `σ`: what each call returns and the state
it leaves.  Results are arbitrary; `socket`, `bind` and `listen` return an
`int`, `inet_addr` an `in_addr_t` (a 32-bit unsigned value).

`getLastError s n` is what `HELIFE_NET_GET_LAST_ERROR(buf, n)`, that is
`::strerror_r(errno, buf, n)`, stores in `buf` in state `s`: `some t` when it
stores the C string `t` there, `none` when it leaves the buffer untouched (the
GNU `strerror_r` hands the text back through its return value, which the
header discards).  `uninitialised s` is the C string found in a freshly
allocated `char` array nobody has written to. -/
structure Platform (σ : Type) where
  littleEndian : Bool
  socket : σ → Int → Int → Int → Int × σ
  inet_addr : String → Nat
  bind : σ → Int → SockaddrIn → Nat → Int × σ
  listen : σ → Int → Int → Int × σ
  getLastError : σ → Nat → Option String
  uninitialised : σ → String
  close : σ → Int → σ

/-- The value of a computation, the platform state after it, and the calls it
made, oldest first. -/
structure Run (σ : Type) (α : Type) where
  val : α
  os : σ
  log : List Event

/-! ## Byte order and integer conversions -/

/-- Function `htons`: host-to-network conversion of a 16-bit value; a byte swap on a
little-endian host, the identity on a big-endian one. -/
def htons (littleEndian : Bool) (hostshort : Nat) : Nat :=
  if littleEndian then (hostshort % 256) * 256 + (hostshort / 256) % 256
  else hostshort % 65536

/-- Function `ntohs`: network-to-host conversion of a 16-bit value. -/
def ntohs (littleEndian : Bool) (netshort : Nat) : Nat :=
  htons littleEndian netshort

/-- The two bytes a 16-bit value occupies in memory, lowest address first. -/
def memBytes16 (littleEndian : Bool) (v : Nat) : List Nat :=
  if littleEndian then [v % 256, (v / 256) % 256] else [(v / 256) % 256, v % 256]

/-- Conversion of a `uint32_t` to `int`: reduction modulo `2^32` into the
signed 32-bit range. -/
def toInt32 (n : Nat) : Int :=
  if n % 4294967296 < 2147483648 then ((n % 4294967296 : Nat) : Int)
  else ((n % 4294967296 : Nat) : Int) - 4294967296

/-! ## `HELIFE_NET_THROW_LAST_ERROR` -/

/-- The C string in `__hnet_error_buffer` when the message is built: the
array comes from `new char[HELIFE_NET_ERROR_MAX_SIZE+1]` without
initialisation, `HELIFE_NET_GET_LAST_ERROR` is called on it and its return
value is dropped, so the buffer holds what that call stored, or else what the
fresh array happened to hold. -/
def messageBuffer {σ : Type} (P : Platform σ) (s : σ) : String :=
  match P.getLastError s HELIFE_NET_ERROR_MAX_SIZE with
  | some t => t
  | none => P.uninitialised s

/-- Macro `HELIFE_NET_THROW_LAST_ERROR(type, prefix)`: allocate the buffer,
call `HELIFE_NET_GET_LAST_ERROR(buffer, HELIFE_NET_ERROR_MAX_SIZE)`, and throw
`type` with the message `prefix + buffer`. -/
def HELIFE_NET_THROW_LAST_ERROR {σ : Type} (P : Platform σ) (s : σ)
    (kind : ErrorKind) (pfx : String) : Exception × List Event :=
  (⟨kind, pfx ++ messageBuffer P s⟩,
    [Event.getLastError HELIFE_NET_ERROR_MAX_SIZE (P.getLastError s HELIFE_NET_ERROR_MAX_SIZE)])

/-! ## `class Socket` -/

/-- The `class Socket`: the single data member `_sock`. -/
structure Socket where
  _sock : Int
  deriving DecidableEq, Repr

/-- Constructor `Socket::Socket(domain, type, protocol)`. -/
def Socket.construct {σ : Type} (P : Platform σ) (s : σ) (domain : SocketDomain)
    (type : SocketType) (protocol : SocketProtocol) : Run σ (Except Exception Socket) :=
  let r := P.socket s domain.toInt type.toInt protocol.toInt
  let ev := Event.socket domain.toInt type.toInt protocol.toInt r.1
  if r.1 = HELIFE_NET_INVALID_SOCKET then
    let t := HELIFE_NET_THROW_LAST_ERROR P r.2 ErrorKind.SocketError "Could not intialize socket: "
    ⟨Except.error t.1, r.2, ev :: t.2⟩
  else
    ⟨Except.ok ⟨r.1⟩, r.2, [ev]⟩

/-- Conversion `Socket::operator HELIFE_NET_SOCKET()`: the raw handle; the wrapper is
left as it was. -/
def Socket.toHandle (self : Socket) : Int × Socket := (self._sock, self)

/-- Destructor `Socket::~Socket()`: `close(_sock)`. -/
def Socket.destroy {σ : Type} (P : Platform σ) (s : σ) (self : Socket) : Run σ Unit :=
  ⟨(), P.close s self._sock, [Event.close self._sock]⟩

/-- The implicitly defined copy constructor of `Socket` (the class declares
none and deletes none): member-wise copy of `_sock`, no platform call. -/
def Socket.copy (other : Socket) : Socket := ⟨other._sock⟩

/-- The implicitly defined copy assignment operator of `Socket`: `_sock` of
the target is overwritten with `_sock` of `other`; no platform call (the
handle the target held is not closed). -/
def Socket.assign (_self : Socket) (other : Socket) : Socket := ⟨other._sock⟩

/-! ## `class Tcp` -/

/-- The `class Tcp`: `_server_sock`, `saServer`, and the number of entries of
the `_clients` vector (it is never filled). -/
structure Tcp where
  _server_sock : Socket
  saServer : SockaddrIn
  _clients : Nat
  deriving DecidableEq, Repr

/-- Constructor `Tcp::Tcp(hostip, port, maxBacklog)`.  When the body throws, the member
`_server_sock`, already constructed, is destroyed during unwinding; when the
member's own constructor throws, no destructor runs. -/
def Tcp.construct {σ : Type} (P : Platform σ) (s : σ) (hostip : String)
    (port : Nat) (maxBacklog : Nat) : Run σ (Except Exception Tcp) :=
  let c := Socket.construct P s SocketDomain.Ipv4 SocketType.Stream SocketProtocol.Default
  match c.val with
  | Except.error e => ⟨Except.error e, c.os, c.log⟩
  | Except.ok server_sock =>
    let a := P.inet_addr hostip
    let saServer : SockaddrIn :=
      { sin_family := SocketDomain.Ipv4.toInt, sin_port := htons P.littleEndian port, s_addr := a }
    let evA := Event.inet_addr hostip a
    if a = 0 then
      let d := Socket.destroy P c.os server_sock
      ⟨Except.error ⟨ErrorKind.InvalidIp, "TCP (ipv4): Invalid ip given"⟩, d.os,
        c.log ++ [evA] ++ d.log⟩
    else
      let h1 := Socket.toHandle server_sock
      let b := P.bind c.os h1.1 saServer sizeofSockaddrIn
      let evB := Event.bind h1.1 saServer sizeofSockaddrIn b.1
      if b.1 = HELIFE_NET_SOCKET_ERROR then
        let t := HELIFE_NET_THROW_LAST_ERROR P b.2 ErrorKind.BindError
          "Could not bind Server Socket TCP (ipv4): "
        let d := Socket.destroy P b.2 h1.2
        ⟨Except.error t.1, d.os, c.log ++ [evA, evB] ++ t.2 ++ d.log⟩
      else
        let h2 := Socket.toHandle h1.2
        let l := P.listen b.2 h2.1 (toInt32 maxBacklog)
        let evL := Event.listen h2.1 (toInt32 maxBacklog) l.1
        if l.1 = HELIFE_NET_SOCKET_ERROR then
          let t := HELIFE_NET_THROW_LAST_ERROR P l.2 ErrorKind.ListenError
            "Could not bind listen on the Socket TCP (ipv4): "
          let d := Socket.destroy P l.2 h2.2
          ⟨Except.error t.1, d.os, c.log ++ [evA, evB, evL] ++ t.2 ++ d.log⟩
        else
          ⟨Except.ok ⟨h2.2, saServer, 0⟩, l.2, c.log ++ [evA, evB, evL]⟩

/-- Destructor `Tcp::~Tcp()` (implicit): the members are destroyed in reverse order of
declaration; only `_server_sock` has a destructor that calls the platform. -/
def Tcp.destroy {σ : Type} (P : Platform σ) (s : σ) (self : Tcp) : Run σ Unit :=
  Socket.destroy P s self._server_sock

/-- The default arguments of `Tcp::Tcp`: `hostip = "0.0.0.0"`. -/
def Tcp.defaultHostip : String := "0.0.0.0"

/-- The default arguments of `Tcp::Tcp`: `port = 8080`. -/
def Tcp.defaultPort : Nat := 8080

/-- The default arguments of `Tcp::Tcp`: `maxBacklog = 5`. -/
def Tcp.defaultMaxBacklog : Nat := 5

/-- A `Tcp` built by `Tcp::Tcp` and, when construction succeeded, destroyed
again: the platform state and the log at the end of the whole lifetime. -/
def Tcp.lifetime {σ : Type} (P : Platform σ) (s : σ) (hostip : String)
    (port : Nat) (maxBacklog : Nat) : Run σ Unit :=
  let c := Tcp.construct P s hostip port maxBacklog
  match c.val with
  | Except.error _ => ⟨(), c.os, c.log⟩
  | Except.ok tcp =>
    let d := Tcp.destroy P c.os tcp
    ⟨(), d.os, c.log ++ d.log⟩

/-! ## Reading the event log -/

/-- The handles passed to `close`, in order. -/
def closedHandles : List Event → List Int
  | [] => []
  | Event.close fd :: es => fd :: closedHandles es
  | _ :: es => closedHandles es

/-- The handles returned by successful `socket` calls (those that did not
return `HELIFE_NET_INVALID_SOCKET`), in order. -/
def createdHandles : List Event → List Int
  | [] => []
  | Event.socket _ _ _ ret :: es =>
    if ret = HELIFE_NET_INVALID_SOCKET then createdHandles es
    else ret :: createdHandles es
  | _ :: es => createdHandles es

/-- The four set-up steps of `Tcp::Tcp`: `socket`, `inet_addr`, `bind`,
`listen` (as opposed to error-text retrieval and `close`). -/
def Event.isSetupCall : Event → Bool
  | Event.socket _ _ _ _ => true
  | Event.inet_addr _ _ => true
  | Event.bind _ _ _ _ => true
  | Event.listen _ _ _ => true
  | Event.getLastError _ _ => false
  | Event.close _ => false

/-- The arguments `(fd, addr, len)` of the `bind` calls of a log. -/
def bindCalls : List Event → List (Int × SockaddrIn × Nat)
  | [] => []
  | Event.bind fd addr len _ :: es => (fd, addr, len) :: bindCalls es
  | _ :: es => bindCalls es

/-- The arguments `(fd, backlog)` of the `listen` calls of a log. -/
def listenCalls : List Event → List (Int × Int)
  | [] => []
  | Event.listen fd backlog _ :: es => (fd, backlog) :: listenCalls es
  | _ :: es => listenCalls es

/-- The class of the exception a constructor threw, if it threw. -/
def raisedKind {α : Type} : Except Exception α → Option ErrorKind
  | Except.error e => some e.kind
  | Except.ok _ => none

/-- The message of the exception a constructor threw, if it threw. -/
def raisedWhat {α : Type} : Except Exception α → Option String
  | Except.error e => some e.what
  | Except.ok _ => none

/-- The object a constructor built, if it did not throw. -/
def built {α : Type} : Except Exception α → Option α
  | Except.error _ => none
  | Except.ok a => some a

/-! ## The C library's `inet_addr`

The header calls the C library's `inet_addr`; the model below follows the
BSD / glibc algorithm (`inet_aton`): up to four numbers separated by `.`,
each read with C conventions (`0x` hexadecimal, leading `0` octal, otherwise
decimal), optionally followed by white space; `INADDR_NONE` on failure.  The
result is the address in network byte order. -/

namespace Libc

/-- The constant `INADDR_NONE`, all 32 bits set. -/
def INADDR_NONE : Nat := 4294967295

/-- C `isdigit` in the C locale. -/
def isdigit (c : Char) : Bool := decide (48 ≤ c.toNat) && decide (c.toNat ≤ 57)

/-- C `isspace` in the C locale. -/
def isspace (c : Char) : Bool :=
  decide (c.toNat = 32) || (decide (9 ≤ c.toNat) && decide (c.toNat ≤ 13))

/-- The value of `c` as a digit in base `base`, when it is one. -/
def digitVal (base : Nat) (c : Char) : Option Nat :=
  let n := c.toNat
  let v :=
    if 48 ≤ n ∧ n ≤ 57 then n - 48
    else if 97 ≤ n ∧ n ≤ 102 then n - 87
    else if 65 ≤ n ∧ n ≤ 70 then n - 55
    else 16
  if v < base then some v else none

/-- Read the longest run of base-`base` digits, accumulating onto `acc`;
returns the number and the unread rest. -/
def readDigits (base : Nat) : Nat → List Char → Nat × List Char
  | acc, [] => (acc, [])
  | acc, c :: cs =>
    match digitVal base c with
    | some v => readDigits base (acc * base + v) cs
    | none => (acc, c :: cs)

/-- C `strtoul(cp, &endp, 0)` on input that starts with a digit: the number
and the unread rest. -/
def strtoul0 (cs : List Char) : Nat × List Char :=
  match cs with
  | z :: x :: h :: rest =>
    if z.toNat = 48 then
      if (x.toNat = 120 ∨ x.toNat = 88) ∧ (digitVal 16 h).isSome then readDigits 16 0 (h :: rest)
      else readDigits 8 0 (x :: h :: rest)
    else readDigits 10 0 cs
  | z :: rest =>
    if z.toNat = 48 then readDigits 8 0 rest else readDigits 10 0 cs
  | [] => (0, [])

/-- The parsing loop of `inet_aton`: `slots` is the number of leading bytes
that may still be stored, `bytes` the ones stored so far.  Returns the stored
bytes, the last number and the unread rest, or `none` on a syntax error. -/
def inet_aton_loop : Nat → List Nat → List Char → Option (List Nat × Nat × List Char)
  | slots, bytes, cs =>
    match cs with
    | [] => none
    | c :: _ =>
      if isdigit c then
        let r := strtoul0 cs
        if r.1 > 4294967295 then none
        else
          match r.2 with
          | [] => some (bytes, r.1, [])
          | d :: rest =>
            if d.toNat = 46 then
              match slots with
              | 0 => none
              | k + 1 =>
                if r.1 > 255 then none else inet_aton_loop k (bytes ++ [r.1]) rest
            else some (bytes, r.1, d :: rest)
      else none

/-- The `n` bytes of `val`, most significant first. -/
def bigEndianBytes : Nat → Nat → List Nat
  | 0, _ => []
  | n + 1, val => (val / 256 ^ n) % 256 :: bigEndianBytes n val

/-- C `inet_aton` as used by `inet_addr`: the four bytes of the address in
network order, or `none` when the text is not an address. -/
def inet_aton (cs : List Char) : Option (List Nat) :=
  match inet_aton_loop 3 [] cs with
  | none => none
  | some (bytes, val, rest) =>
    let trailingOk :=
      match rest with
      | [] => true
      | c :: _ => decide (c.toNat < 128) && isspace c
    if trailingOk then
      if val < 256 ^ (4 - bytes.length) then
        some (bytes ++ bigEndianBytes (4 - bytes.length) val)
      else none
    else none

/-- The 32-bit value a host reads from four bytes in memory. -/
def wordOfBytes (littleEndian : Bool) (m : List Nat) : Nat :=
  if littleEndian then m.foldr (fun b acc => b + 256 * acc) 0
  else m.foldl (fun acc b => 256 * acc + b) 0

/-- C `inet_addr(cp)`, where `cp` is the C string of `s` (it ends at the
first NUL). -/
def inet_addr (littleEndian : Bool) (s : String) : Nat :=
  match inet_aton (s.toList.takeWhile (fun c => decide (c.toNat ≠ 0))) with
  | some m => wordOfBytes littleEndian m
  | none => INADDR_NONE

end Libc

/-! ## A scripted platform -/

/-- A little-endian platform for concrete runs.  Its state counts the
`socket` calls made so far; the `n`-th call returns `socketRet n`; `bind`
and `listen` return fixed values; the last-error text is fixed and
`HELIFE_NET_GET_LAST_ERROR` stores it in the buffer (as the XSI `strerror_r`
does); `inet_addr` is the C library's. -/
def scriptedPlatform (socketRet : Nat → Int) (bindRet listenRet : Int)
    (errText : String) : Platform Nat where
  littleEndian := true
  socket := fun s _ _ _ => (socketRet s, s + 1)
  inet_addr := Libc.inet_addr true
  bind := fun s _ _ _ => (bindRet, s)
  listen := fun s _ _ => (listenRet, s)
  getLastError := fun _ _ => some errText
  uninitialised := fun _ => ""
  close := fun s _ => s

/-- The scripted platform with a `strerror_r` that leaves the buffer untouched
(as the GNU `strerror_r` does for a known error number); `garbage` is the C
string the unwritten buffer holds. -/
def scriptedPlatformUnwritten (socketRet : Nat → Int) (bindRet listenRet : Int)
    (garbage : String) : Platform Nat where
  littleEndian := true
  socket := fun s _ _ _ => (socketRet s, s + 1)
  inet_addr := Libc.inet_addr true
  bind := fun s _ _ _ => (bindRet, s)
  listen := fun s _ _ => (listenRet, s)
  getLastError := fun _ _ => none
  uninitialised := fun _ => garbage
  close := fun s _ => s

/-! ## A platform that counts -/

/-- The state of a counting platform: the state of the platform it wraps, the
handles its successful `socket` calls have returned, and the handles its
`close` has been called with, both oldest first. -/
structure Counted (σ : Type) where
  inner : σ
  created : List Int
  closed : List Int

/-- The platform `P` with counters: it answers every call as `P` does and
keeps, in its own state, the handles it has handed out and the handles it has
been asked to close. -/
def Platform.counting {σ : Type} (P : Platform σ) : Platform (Counted σ) where
  littleEndian := P.littleEndian
  socket := fun c domain type protocol =>
    ((P.socket c.inner domain type protocol).1,
      ⟨(P.socket c.inner domain type protocol).2,
        if (P.socket c.inner domain type protocol).1 = HELIFE_NET_INVALID_SOCKET then c.created
        else c.created ++ [(P.socket c.inner domain type protocol).1],
        c.closed⟩)
  inet_addr := P.inet_addr
  bind := fun c fd addr len =>
    ((P.bind c.inner fd addr len).1, ⟨(P.bind c.inner fd addr len).2, c.created, c.closed⟩)
  listen := fun c fd backlog =>
    ((P.listen c.inner fd backlog).1, ⟨(P.listen c.inner fd backlog).2, c.created, c.closed⟩)
  getLastError := fun c buflen => P.getLastError c.inner buflen
  uninitialised := fun c => P.uninitialised c.inner
  close := fun c fd => ⟨P.close c.inner fd, c.created, c.closed ++ [fd]⟩

/-! ## Lifetimes of `Socket` objects -/

/-- What a program can do with `Socket` objects: construct one, copy
construct one from the `i`-th live one, copy assign the `j`-th live one to the
`i`-th, read the raw handle of the `i`-th live one, destroy the `i`-th live
one. -/
inductive SocketOp where
  | construct (domain : SocketDomain) (type : SocketType) (protocol : SocketProtocol)
  | copy (i : Nat)
  | assign (i j : Nat)
  | read (i : Nat)
  | destroy (i : Nat)
  deriving DecidableEq, Repr

/-- Whether an operation is a copy (copy construction or copy assignment). -/
def SocketOp.isCopy : SocketOp → Bool
  | SocketOp.copy _ => true
  | SocketOp.assign _ _ => true
  | _ => false

/-- The platform state, the live `Socket` objects and the log so far. -/
structure SocketWorld (σ : Type) where
  os : σ
  live : List Socket
  log : List Event

/-- One operation; an operation on an object that does not exist does
nothing. -/
def SocketOp.step {σ : Type} (P : Platform σ) (w : SocketWorld σ) : SocketOp → SocketWorld σ
  | SocketOp.construct domain type protocol =>
    let c := Socket.construct P w.os domain type protocol
    match c.val with
    | Except.ok sk => ⟨c.os, w.live ++ [sk], w.log ++ c.log⟩
    | Except.error _ => ⟨c.os, w.live, w.log ++ c.log⟩
  | SocketOp.copy i =>
    match w.live.get? i with
    | some sk => ⟨w.os, w.live ++ [Socket.copy sk], w.log⟩
    | none => w
  | SocketOp.assign i j =>
    match w.live.get? i, w.live.get? j with
    | some target, some other => ⟨w.os, w.live.set i (Socket.assign target other), w.log⟩
    | _, _ => w
  | SocketOp.read i =>
    match w.live.get? i with
    | some sk => ⟨w.os, w.live.set i (Socket.toHandle sk).2, w.log⟩
    | none => w
  | SocketOp.destroy i =>
    match w.live.get? i with
    | some sk =>
      let d := Socket.destroy P w.os sk
      ⟨d.os, w.live.eraseIdx i, w.log ++ d.log⟩
    | none => w

/-- A sequence of operations, from a given world. -/
def SocketOp.run {σ : Type} (P : Platform σ) (w : SocketWorld σ) (ops : List SocketOp) :
    SocketWorld σ :=
  ops.foldl (SocketOp.step P) w

/-- The handles held by the live `Socket` objects. -/
def SocketWorld.liveHandles {σ : Type} (w : SocketWorld σ) : List Int :=
  w.live.map (fun sk => sk._sock)

/-- The balance between creations, closes and live owners of a handle `h`:
every successful creation that returned `h` is matched either by one
`close(h)` or by one live wrapper holding `h`. -/
def SocketWorld.balanced {σ : Type} (w : SocketWorld σ) (h : Int) : Prop :=
  (closedHandles w.log).count h + w.liveHandles.count h = (createdHandles w.log).count h

/-! ## The platform's answers along one `Tcp` construction

Each answer is taken in the state the preceding call left behind, with the
arguments the constructor passes. -/

/-- The platform's answer to `socket(AF_INET, SOCK_STREAM, 0)` in state `s`. -/
def Tcp.socketAnswer {σ : Type} (P : Platform σ) (s : σ) : Int × σ :=
  P.socket s SocketDomain.Ipv4.toInt SocketType.Stream.toInt SocketProtocol.Default.toInt

/-- The address structure the constructor fills in. -/
def Tcp.bindAddress {σ : Type} (P : Platform σ) (hostip : String) (port : Nat) : SockaddrIn :=
  { sin_family := SocketDomain.Ipv4.toInt
    sin_port := htons P.littleEndian port
    s_addr := P.inet_addr hostip }

/-- The platform's answer to `bind` on the created handle. -/
def Tcp.bindAnswer {σ : Type} (P : Platform σ) (s : σ) (hostip : String) (port : Nat) :
    Int × σ :=
  P.bind (Tcp.socketAnswer P s).2 (Tcp.socketAnswer P s).1 (Tcp.bindAddress P hostip port)
    sizeofSockaddrIn

/-- The platform's answer to `listen` on the bound handle. -/
def Tcp.listenAnswer {σ : Type} (P : Platform σ) (s : σ) (hostip : String) (port : Nat)
    (maxBacklog : Nat) : Int × σ :=
  P.listen (Tcp.bindAnswer P s hostip port).2 (Tcp.socketAnswer P s).1 (toInt32 maxBacklog)

/-- The four set-up calls of a `Tcp` construction with the platform's
answers, in the order socket, address parsing, bind, listen. -/
def Tcp.setupSteps {σ : Type} (P : Platform σ) (s : σ) (hostip : String) (port : Nat)
    (maxBacklog : Nat) : List Event :=
  [ Event.socket SocketDomain.Ipv4.toInt SocketType.Stream.toInt SocketProtocol.Default.toInt
      (Tcp.socketAnswer P s).1,
    Event.inet_addr hostip (P.inet_addr hostip),
    Event.bind (Tcp.socketAnswer P s).1 (Tcp.bindAddress P hostip port) sizeofSockaddrIn
      (Tcp.bindAnswer P s hostip port).1,
    Event.listen (Tcp.socketAnswer P s).1 (toInt32 maxBacklog)
      (Tcp.listenAnswer P s hostip port maxBacklog).1 ]

/-- The number of set-up steps up to and including the first one that
fails (all four when none fails). -/
def Tcp.stepsReached {σ : Type} (P : Platform σ) (s : σ) (hostip : String) (port : Nat) :
    Nat :=
  if (Tcp.socketAnswer P s).1 = HELIFE_NET_INVALID_SOCKET then 1
  else if P.inet_addr hostip = 0 then 2
  else if (Tcp.bindAnswer P s hostip port).1 = HELIFE_NET_SOCKET_ERROR then 3
  else 4


end hnet

/-! # Theorems -/

namespace hnet

/-! ## The constructors, case by case -/

theorem Socket.construct_invalid {σ : Type} (P : Platform σ) (s : σ) (domain : SocketDomain)
    (type : SocketType) (protocol : SocketProtocol)
    (h : (P.socket s domain.toInt type.toInt protocol.toInt).1 = HELIFE_NET_INVALID_SOCKET) :
    Socket.construct P s domain type protocol =
      ⟨Except.error ⟨ErrorKind.SocketError, "Could not intialize socket: " ++
          messageBuffer P (P.socket s domain.toInt type.toInt protocol.toInt).2⟩,
        (P.socket s domain.toInt type.toInt protocol.toInt).2,
        [Event.socket domain.toInt type.toInt protocol.toInt
            (P.socket s domain.toInt type.toInt protocol.toInt).1,
          Event.getLastError HELIFE_NET_ERROR_MAX_SIZE
            (P.getLastError (P.socket s domain.toInt type.toInt protocol.toInt).2
              HELIFE_NET_ERROR_MAX_SIZE)]⟩ := by
  simp only [Socket.construct, HELIFE_NET_THROW_LAST_ERROR, h, if_true]

theorem Socket.construct_valid {σ : Type} (P : Platform σ) (s : σ) (domain : SocketDomain)
    (type : SocketType) (protocol : SocketProtocol)
    (h : (P.socket s domain.toInt type.toInt protocol.toInt).1 ≠ HELIFE_NET_INVALID_SOCKET) :
    Socket.construct P s domain type protocol =
      ⟨Except.ok ⟨(P.socket s domain.toInt type.toInt protocol.toInt).1⟩,
        (P.socket s domain.toInt type.toInt protocol.toInt).2,
        [Event.socket domain.toInt type.toInt protocol.toInt
            (P.socket s domain.toInt type.toInt protocol.toInt).1]⟩ := by
  simp only [Socket.construct, h, if_false]

theorem Tcp.construct_socket_failed {σ : Type} (P : Platform σ) (s : σ) (hostip : String)
    (port maxBacklog : Nat)
    (h : (Tcp.socketAnswer P s).1 = HELIFE_NET_INVALID_SOCKET) :
    Tcp.construct P s hostip port maxBacklog =
      ⟨Except.error ⟨ErrorKind.SocketError, "Could not intialize socket: " ++
          messageBuffer P (Tcp.socketAnswer P s).2⟩,
        (Tcp.socketAnswer P s).2,
        (Tcp.setupSteps P s hostip port maxBacklog).take 1 ++
          [Event.getLastError HELIFE_NET_ERROR_MAX_SIZE
            (P.getLastError (Tcp.socketAnswer P s).2 HELIFE_NET_ERROR_MAX_SIZE)]⟩ := by
  unfold Tcp.socketAnswer at h
  simp only [Tcp.construct, Socket.construct_invalid P s _ _ _ h]
  rfl

theorem Tcp.construct_invalid_ip {σ : Type} (P : Platform σ) (s : σ) (hostip : String)
    (port maxBacklog : Nat)
    (h : (Tcp.socketAnswer P s).1 ≠ HELIFE_NET_INVALID_SOCKET)
    (ha : P.inet_addr hostip = 0) :
    Tcp.construct P s hostip port maxBacklog =
      ⟨Except.error ⟨ErrorKind.InvalidIp, "TCP (ipv4): Invalid ip given"⟩,
        P.close (Tcp.socketAnswer P s).2 (Tcp.socketAnswer P s).1,
        (Tcp.setupSteps P s hostip port maxBacklog).take 2 ++
          [Event.close (Tcp.socketAnswer P s).1]⟩ := by
  unfold Tcp.socketAnswer at h
  simp only [Tcp.construct, Socket.construct_valid P s _ _ _ h, ha, if_true, Socket.destroy]
  simp [Tcp.setupSteps, Tcp.socketAnswer, ha]

theorem Tcp.construct_bind_failed {σ : Type} (P : Platform σ) (s : σ) (hostip : String)
    (port maxBacklog : Nat)
    (h : (Tcp.socketAnswer P s).1 ≠ HELIFE_NET_INVALID_SOCKET)
    (ha : P.inet_addr hostip ≠ 0)
    (hb : (Tcp.bindAnswer P s hostip port).1 = HELIFE_NET_SOCKET_ERROR) :
    Tcp.construct P s hostip port maxBacklog =
      ⟨Except.error ⟨ErrorKind.BindError, "Could not bind Server Socket TCP (ipv4): " ++
          messageBuffer P (Tcp.bindAnswer P s hostip port).2⟩,
        P.close (Tcp.bindAnswer P s hostip port).2 (Tcp.socketAnswer P s).1,
        (Tcp.setupSteps P s hostip port maxBacklog).take 3 ++
          [Event.getLastError HELIFE_NET_ERROR_MAX_SIZE
            (P.getLastError (Tcp.bindAnswer P s hostip port).2 HELIFE_NET_ERROR_MAX_SIZE),
           Event.close (Tcp.socketAnswer P s).1]⟩ := by
  unfold Tcp.bindAnswer Tcp.bindAddress at hb
  unfold Tcp.socketAnswer at h hb
  simp only [Tcp.construct, Socket.construct_valid P s _ _ _ h, ha, if_false, Socket.destroy,
    Socket.toHandle, hb, if_true, HELIFE_NET_THROW_LAST_ERROR]
  simp [Tcp.setupSteps, Tcp.socketAnswer, Tcp.bindAnswer, Tcp.bindAddress, hb]

theorem Tcp.construct_listen_failed {σ : Type} (P : Platform σ) (s : σ) (hostip : String)
    (port maxBacklog : Nat)
    (h : (Tcp.socketAnswer P s).1 ≠ HELIFE_NET_INVALID_SOCKET)
    (ha : P.inet_addr hostip ≠ 0)
    (hb : (Tcp.bindAnswer P s hostip port).1 ≠ HELIFE_NET_SOCKET_ERROR)
    (hl : (Tcp.listenAnswer P s hostip port maxBacklog).1 = HELIFE_NET_SOCKET_ERROR) :
    Tcp.construct P s hostip port maxBacklog =
      ⟨Except.error ⟨ErrorKind.ListenError,
          "Could not bind listen on the Socket TCP (ipv4): " ++
          messageBuffer P (Tcp.listenAnswer P s hostip port maxBacklog).2⟩,
        P.close (Tcp.listenAnswer P s hostip port maxBacklog).2 (Tcp.socketAnswer P s).1,
        Tcp.setupSteps P s hostip port maxBacklog ++
          [Event.getLastError HELIFE_NET_ERROR_MAX_SIZE
            (P.getLastError (Tcp.listenAnswer P s hostip port maxBacklog).2
              HELIFE_NET_ERROR_MAX_SIZE),
           Event.close (Tcp.socketAnswer P s).1]⟩ := by
  unfold Tcp.listenAnswer at hl
  unfold Tcp.bindAnswer Tcp.bindAddress at hb hl
  unfold Tcp.socketAnswer at h hb hl
  simp only [Tcp.construct, Socket.construct_valid P s _ _ _ h, ha, if_false, Socket.destroy,
    Socket.toHandle, hb, hl, if_true, HELIFE_NET_THROW_LAST_ERROR]
  simp [Tcp.setupSteps, Tcp.socketAnswer, Tcp.bindAnswer, Tcp.bindAddress, Tcp.listenAnswer,
    hl]

theorem Tcp.construct_listening {σ : Type} (P : Platform σ) (s : σ) (hostip : String)
    (port maxBacklog : Nat)
    (h : (Tcp.socketAnswer P s).1 ≠ HELIFE_NET_INVALID_SOCKET)
    (ha : P.inet_addr hostip ≠ 0)
    (hb : (Tcp.bindAnswer P s hostip port).1 ≠ HELIFE_NET_SOCKET_ERROR)
    (hl : (Tcp.listenAnswer P s hostip port maxBacklog).1 ≠ HELIFE_NET_SOCKET_ERROR) :
    Tcp.construct P s hostip port maxBacklog =
      ⟨Except.ok ⟨⟨(Tcp.socketAnswer P s).1⟩, Tcp.bindAddress P hostip port, 0⟩,
        (Tcp.listenAnswer P s hostip port maxBacklog).2,
        Tcp.setupSteps P s hostip port maxBacklog⟩ := by
  unfold Tcp.listenAnswer at hl
  unfold Tcp.bindAnswer Tcp.bindAddress at hb hl
  unfold Tcp.socketAnswer at h hb hl
  simp only [Tcp.construct, Socket.construct_valid P s _ _ _ h, ha, if_false, Socket.destroy,
    Socket.toHandle, hb, hl, HELIFE_NET_THROW_LAST_ERROR]
  simp [Tcp.setupSteps, Tcp.socketAnswer, Tcp.bindAnswer, Tcp.bindAddress, Tcp.listenAnswer]

/-- C1. The outcome of `Tcp(hostip, port, maxBacklog)` over an arbitrary
platform is decided by the first failing step: `SocketError` when `socket`
returns the invalid sentinel, otherwise `InvalidIp` when the parsed address
is zero, otherwise `BindError` when `bind` returns the error sentinel,
otherwise `ListenError` when `listen` returns the error sentinel; and an
object is built (holding the created handle and the filled-in address)
exactly when none of the four steps fails. -/
theorem Tcp_construct_outcome_first_failing_step {σ : Type} (P : Platform σ) (s : σ)
    (hostip : String) (port maxBacklog : Nat) :
    raisedKind (Tcp.construct P s hostip port maxBacklog).val =
      (if (Tcp.socketAnswer P s).1 = HELIFE_NET_INVALID_SOCKET then some ErrorKind.SocketError
       else if P.inet_addr hostip = 0 then some ErrorKind.InvalidIp
       else if (Tcp.bindAnswer P s hostip port).1 = HELIFE_NET_SOCKET_ERROR then
         some ErrorKind.BindError
       else if (Tcp.listenAnswer P s hostip port maxBacklog).1 = HELIFE_NET_SOCKET_ERROR then
         some ErrorKind.ListenError
       else none)
    ∧ ((built (Tcp.construct P s hostip port maxBacklog).val).isSome = true ↔
        ((Tcp.socketAnswer P s).1 ≠ HELIFE_NET_INVALID_SOCKET
          ∧ P.inet_addr hostip ≠ 0
          ∧ (Tcp.bindAnswer P s hostip port).1 ≠ HELIFE_NET_SOCKET_ERROR
          ∧ (Tcp.listenAnswer P s hostip port maxBacklog).1 ≠ HELIFE_NET_SOCKET_ERROR))
    ∧ (∀ tcp, built (Tcp.construct P s hostip port maxBacklog).val = some tcp ↔
        (((Tcp.socketAnswer P s).1 ≠ HELIFE_NET_INVALID_SOCKET
          ∧ P.inet_addr hostip ≠ 0
          ∧ (Tcp.bindAnswer P s hostip port).1 ≠ HELIFE_NET_SOCKET_ERROR
          ∧ (Tcp.listenAnswer P s hostip port maxBacklog).1 ≠ HELIFE_NET_SOCKET_ERROR)
         ∧ tcp = ⟨⟨(Tcp.socketAnswer P s).1⟩, Tcp.bindAddress P hostip port, 0⟩)) := by
  by_cases h : (Tcp.socketAnswer P s).1 = HELIFE_NET_INVALID_SOCKET
  · simp [Tcp.construct_socket_failed P s hostip port maxBacklog h, raisedKind, built, h]
  by_cases ha : P.inet_addr hostip = 0
  · simp [Tcp.construct_invalid_ip P s hostip port maxBacklog h ha, raisedKind, built, h, ha]
  by_cases hb : (Tcp.bindAnswer P s hostip port).1 = HELIFE_NET_SOCKET_ERROR
  · simp [Tcp.construct_bind_failed P s hostip port maxBacklog h ha hb, raisedKind, built,
      h, ha, hb]
  by_cases hl : (Tcp.listenAnswer P s hostip port maxBacklog).1 = HELIFE_NET_SOCKET_ERROR
  · simp [Tcp.construct_listen_failed P s hostip port maxBacklog h ha hb hl, raisedKind, built,
      h, ha, hb, hl]
  · simp [Tcp.construct_listening P s hostip port maxBacklog h ha hb hl, raisedKind, built,
      h, ha, hb, hl, eq_comm]

/-- The `bind` and `listen` calls of a `Tcp` construction, with their
arguments. -/
theorem Tcp.construct_bind_listen_calls {σ : Type} (P : Platform σ) (s : σ)
    (hostip : String) (port maxBacklog : Nat) :
    bindCalls (Tcp.construct P s hostip port maxBacklog).log =
        (if (Tcp.socketAnswer P s).1 = HELIFE_NET_INVALID_SOCKET ∨ P.inet_addr hostip = 0 then []
         else [((Tcp.socketAnswer P s).1, Tcp.bindAddress P hostip port, sizeofSockaddrIn)])
    ∧ listenCalls (Tcp.construct P s hostip port maxBacklog).log =
        (if (Tcp.socketAnswer P s).1 = HELIFE_NET_INVALID_SOCKET ∨ P.inet_addr hostip = 0
            ∨ (Tcp.bindAnswer P s hostip port).1 = HELIFE_NET_SOCKET_ERROR then []
         else [((Tcp.socketAnswer P s).1, toInt32 maxBacklog)]) := by
  by_cases h : (Tcp.socketAnswer P s).1 = HELIFE_NET_INVALID_SOCKET
  · rw [Tcp.construct_socket_failed P s hostip port maxBacklog h]
    simp [Tcp.setupSteps, bindCalls, listenCalls, h]
  by_cases ha : P.inet_addr hostip = 0
  · rw [Tcp.construct_invalid_ip P s hostip port maxBacklog h ha]
    simp [Tcp.setupSteps, bindCalls, listenCalls, h, ha]
  by_cases hb : (Tcp.bindAnswer P s hostip port).1 = HELIFE_NET_SOCKET_ERROR
  · rw [Tcp.construct_bind_failed P s hostip port maxBacklog h ha hb]
    simp [Tcp.setupSteps, bindCalls, listenCalls, h, ha, hb]
  by_cases hl : (Tcp.listenAnswer P s hostip port maxBacklog).1 = HELIFE_NET_SOCKET_ERROR
  · rw [Tcp.construct_listen_failed P s hostip port maxBacklog h ha hb hl]
    simp [Tcp.setupSteps, bindCalls, listenCalls, h, ha, hb]
  · rw [Tcp.construct_listening P s hostip port maxBacklog h ha hb hl]
    simp [Tcp.setupSteps, bindCalls, listenCalls, h, ha, hb]

/-- C2. The set-up calls a `Tcp` construction makes are a prefix of
socket(IPv4, stream, 0), address parsing, bind, listen, in that order, cut
off right after the first failing step; whatever else is in the log (reading
the error text, closing the handle) comes after that prefix and is none of
the four.  So `bind` is called only when the socket exists and the parsed
address is not zero, and `listen` only when in addition `bind` succeeded. -/
theorem Tcp_construct_calls_in_order {σ : Type} (P : Platform σ) (s : σ)
    (hostip : String) (port maxBacklog : Nat) :
    (∃ rest : List Event,
      (Tcp.construct P s hostip port maxBacklog).log =
        (Tcp.setupSteps P s hostip port maxBacklog).take (Tcp.stepsReached P s hostip port)
          ++ rest
      ∧ rest.all (fun e => !e.isSetupCall) = true)
    ∧ (Tcp.construct P s hostip port maxBacklog).log.filter Event.isSetupCall =
        (Tcp.setupSteps P s hostip port maxBacklog).take (Tcp.stepsReached P s hostip port)
    ∧ bindCalls (Tcp.construct P s hostip port maxBacklog).log =
        (if (Tcp.socketAnswer P s).1 = HELIFE_NET_INVALID_SOCKET ∨ P.inet_addr hostip = 0 then []
         else [((Tcp.socketAnswer P s).1, Tcp.bindAddress P hostip port, sizeofSockaddrIn)])
    ∧ listenCalls (Tcp.construct P s hostip port maxBacklog).log =
        (if (Tcp.socketAnswer P s).1 = HELIFE_NET_INVALID_SOCKET ∨ P.inet_addr hostip = 0
            ∨ (Tcp.bindAnswer P s hostip port).1 = HELIFE_NET_SOCKET_ERROR then []
         else [((Tcp.socketAnswer P s).1, toInt32 maxBacklog)]) := by
  by_cases h : (Tcp.socketAnswer P s).1 = HELIFE_NET_INVALID_SOCKET
  · have hn : Tcp.stepsReached P s hostip port = 1 := by simp [Tcp.stepsReached, h]
    rw [Tcp.construct_socket_failed P s hostip port maxBacklog h, hn]
    refine ⟨⟨_, rfl, ?_⟩, ?_⟩
    · simp [Event.isSetupCall]
    · simp [Tcp.setupSteps, Event.isSetupCall, bindCalls, listenCalls, h]
  by_cases ha : P.inet_addr hostip = 0
  · have hn : Tcp.stepsReached P s hostip port = 2 := by simp [Tcp.stepsReached, h, ha]
    rw [Tcp.construct_invalid_ip P s hostip port maxBacklog h ha, hn]
    refine ⟨⟨_, rfl, ?_⟩, ?_⟩
    · simp [Event.isSetupCall]
    · simp [Tcp.setupSteps, Event.isSetupCall, bindCalls, listenCalls, h, ha]
  by_cases hb : (Tcp.bindAnswer P s hostip port).1 = HELIFE_NET_SOCKET_ERROR
  · have hn : Tcp.stepsReached P s hostip port = 3 := by simp [Tcp.stepsReached, h, ha, hb]
    rw [Tcp.construct_bind_failed P s hostip port maxBacklog h ha hb, hn]
    refine ⟨⟨_, rfl, ?_⟩, ?_⟩
    · simp [Event.isSetupCall]
    · simp [Tcp.setupSteps, Event.isSetupCall, bindCalls, listenCalls, h, ha, hb]
  have hn : Tcp.stepsReached P s hostip port = 4 := by simp [Tcp.stepsReached, h, ha, hb]
  have ht : (Tcp.setupSteps P s hostip port maxBacklog).take 4 =
      Tcp.setupSteps P s hostip port maxBacklog := rfl
  by_cases hl : (Tcp.listenAnswer P s hostip port maxBacklog).1 = HELIFE_NET_SOCKET_ERROR
  · rw [Tcp.construct_listen_failed P s hostip port maxBacklog h ha hb hl, hn, ht]
    refine ⟨⟨_, rfl, ?_⟩, ?_⟩
    · simp [Event.isSetupCall]
    · simp [Tcp.setupSteps, Event.isSetupCall, bindCalls, listenCalls, h, ha, hb]
  · rw [Tcp.construct_listening P s hostip port maxBacklog h ha hb hl, hn, ht]
    refine ⟨⟨[], by simp, by simp⟩, ?_⟩
    simp [Tcp.setupSteps, Event.isSetupCall, bindCalls, listenCalls, h, ha, hb]

theorem set_same_of_get? (l : List Socket) (i : Nat) (sk : Socket) (h : l.get? i = some sk) :
    l.set i sk = l := by
  induction l generalizing i with
  | nil => rfl
  | cons a as ih =>
    cases i with
    | zero =>
      simp only [List.get?_cons_zero, Option.some.injEq] at h
      simp [h]
    | succ k =>
      simp only [List.get?_cons_succ] at h
      simp [ih k h]

theorem Tcp.lifetime_os_log {σ : Type} (P : Platform σ) (s : σ)
    (hostip : String) (port maxBacklog : Nat) :
    Tcp.lifetime P s hostip port maxBacklog =
      (if (Tcp.socketAnswer P s).1 = HELIFE_NET_INVALID_SOCKET then
         ⟨(), (Tcp.socketAnswer P s).2, (Tcp.construct P s hostip port maxBacklog).log⟩
       else if P.inet_addr hostip = 0 then
         ⟨(), P.close (Tcp.socketAnswer P s).2 (Tcp.socketAnswer P s).1,
           (Tcp.construct P s hostip port maxBacklog).log⟩
       else if (Tcp.bindAnswer P s hostip port).1 = HELIFE_NET_SOCKET_ERROR then
         ⟨(), P.close (Tcp.bindAnswer P s hostip port).2 (Tcp.socketAnswer P s).1,
           (Tcp.construct P s hostip port maxBacklog).log⟩
       else if (Tcp.listenAnswer P s hostip port maxBacklog).1 = HELIFE_NET_SOCKET_ERROR then
         ⟨(), P.close (Tcp.listenAnswer P s hostip port maxBacklog).2 (Tcp.socketAnswer P s).1,
           (Tcp.construct P s hostip port maxBacklog).log⟩
       else
         ⟨(), P.close (Tcp.listenAnswer P s hostip port maxBacklog).2 (Tcp.socketAnswer P s).1,
           (Tcp.construct P s hostip port maxBacklog).log ++
             [Event.close (Tcp.socketAnswer P s).1]⟩) := by
  by_cases h : (Tcp.socketAnswer P s).1 = HELIFE_NET_INVALID_SOCKET
  · simp [Tcp.lifetime, Tcp.construct_socket_failed P s hostip port maxBacklog h, h]
  by_cases ha : P.inet_addr hostip = 0
  · simp [Tcp.lifetime, Tcp.construct_invalid_ip P s hostip port maxBacklog h ha, h, ha]
  by_cases hb : (Tcp.bindAnswer P s hostip port).1 = HELIFE_NET_SOCKET_ERROR
  · simp [Tcp.lifetime, Tcp.construct_bind_failed P s hostip port maxBacklog h ha hb, h, ha, hb]
  by_cases hl : (Tcp.listenAnswer P s hostip port maxBacklog).1 = HELIFE_NET_SOCKET_ERROR
  · simp [Tcp.lifetime, Tcp.construct_listen_failed P s hostip port maxBacklog h ha hb hl,
      h, ha, hb, hl]
  · simp [Tcp.lifetime, Tcp.construct_listening P s hostip port maxBacklog h ha hb hl,
      Tcp.destroy, Socket.destroy, h, ha, hb, hl]

theorem Tcp.lifetime_log {σ : Type} (P : Platform σ) (s : σ)
    (hostip : String) (port maxBacklog : Nat) :
    closedHandles (Tcp.lifetime P s hostip port maxBacklog).log =
      createdHandles (Tcp.lifetime P s hostip port maxBacklog).log
    ∧ createdHandles (Tcp.lifetime P s hostip port maxBacklog).log =
        (if (Tcp.socketAnswer P s).1 = HELIFE_NET_INVALID_SOCKET then []
         else [(Tcp.socketAnswer P s).1])
    ∧ closedHandles (Tcp.construct P s hostip port maxBacklog).log =
        (if (Tcp.socketAnswer P s).1 = HELIFE_NET_INVALID_SOCKET then []
         else if P.inet_addr hostip = 0
            ∨ (Tcp.bindAnswer P s hostip port).1 = HELIFE_NET_SOCKET_ERROR
            ∨ (Tcp.listenAnswer P s hostip port maxBacklog).1 = HELIFE_NET_SOCKET_ERROR
           then [(Tcp.socketAnswer P s).1]
         else [])
    ∧ (match built (Tcp.construct P s hostip port maxBacklog).val with
        | some tcp => (Tcp.destroy P (Tcp.construct P s hostip port maxBacklog).os tcp).log
        | none => []) =
        (if (Tcp.socketAnswer P s).1 ≠ HELIFE_NET_INVALID_SOCKET
            ∧ P.inet_addr hostip ≠ 0
            ∧ (Tcp.bindAnswer P s hostip port).1 ≠ HELIFE_NET_SOCKET_ERROR
            ∧ (Tcp.listenAnswer P s hostip port maxBacklog).1 ≠ HELIFE_NET_SOCKET_ERROR
         then [Event.close (Tcp.socketAnswer P s).1]
         else []) := by
  by_cases h : (Tcp.socketAnswer P s).1 = HELIFE_NET_INVALID_SOCKET
  · simp [Tcp.lifetime, Tcp.construct_socket_failed P s hostip port maxBacklog h,
      Tcp.setupSteps, closedHandles, createdHandles, built, h]
  by_cases ha : P.inet_addr hostip = 0
  · simp [Tcp.lifetime, Tcp.construct_invalid_ip P s hostip port maxBacklog h ha,
      Tcp.setupSteps, closedHandles, createdHandles, built, h, ha]
  by_cases hb : (Tcp.bindAnswer P s hostip port).1 = HELIFE_NET_SOCKET_ERROR
  · simp [Tcp.lifetime, Tcp.construct_bind_failed P s hostip port maxBacklog h ha hb,
      Tcp.setupSteps, closedHandles, createdHandles, built, h, ha, hb]
  by_cases hl : (Tcp.listenAnswer P s hostip port maxBacklog).1 = HELIFE_NET_SOCKET_ERROR
  · simp [Tcp.lifetime, Tcp.construct_listen_failed P s hostip port maxBacklog h ha hb hl,
      Tcp.setupSteps, closedHandles, createdHandles, built, h, ha, hb, hl]
  · simp [Tcp.lifetime, Tcp.construct_listening P s hostip port maxBacklog h ha hb hl,
      Tcp.setupSteps, closedHandles, createdHandles, built, Tcp.destroy, Socket.destroy,
      h, ha, hb, hl]

theorem Tcp.lifetime_counting {σ : Type} (P : Platform σ) (c : Counted σ)
    (hostip : String) (port maxBacklog : Nat) :
    (Tcp.lifetime P.counting c hostip port maxBacklog).os.created =
        c.created ++ (if (Tcp.socketAnswer P c.inner).1 = HELIFE_NET_INVALID_SOCKET then []
          else [(Tcp.socketAnswer P c.inner).1])
    ∧ (Tcp.lifetime P.counting c hostip port maxBacklog).os.closed =
        c.closed ++ (if (Tcp.socketAnswer P c.inner).1 = HELIFE_NET_INVALID_SOCKET then []
          else [(Tcp.socketAnswer P c.inner).1])
    ∧ (Tcp.lifetime P.counting c hostip port maxBacklog).os.inner =
        (Tcp.lifetime P c.inner hostip port maxBacklog).os := by
  have e1 : (Tcp.socketAnswer P.counting c).1 = (Tcp.socketAnswer P c.inner).1 := rfl
  have e2 : P.counting.inet_addr hostip = P.inet_addr hostip := rfl
  have e3 : (Tcp.bindAnswer P.counting c hostip port).1 =
      (Tcp.bindAnswer P c.inner hostip port).1 := rfl
  have e4 : (Tcp.listenAnswer P.counting c hostip port maxBacklog).1 =
      (Tcp.listenAnswer P c.inner hostip port maxBacklog).1 := rfl
  rw [Tcp.lifetime_os_log P.counting c, Tcp.lifetime_os_log P c.inner, e1, e2, e3, e4]
  by_cases h : (Tcp.socketAnswer P c.inner).1 = HELIFE_NET_INVALID_SOCKET
  · have h0 : (P.socket c.inner SocketDomain.Ipv4.toInt SocketType.Stream.toInt
        SocketProtocol.Default.toInt).1 = HELIFE_NET_INVALID_SOCKET := h
    simp only [h, if_true]
    simp [h0, Tcp.socketAnswer, Platform.counting]
  have h0 : ¬ (P.socket c.inner SocketDomain.Ipv4.toInt SocketType.Stream.toInt
      SocketProtocol.Default.toInt).1 = HELIFE_NET_INVALID_SOCKET := h
  by_cases ha : P.inet_addr hostip = 0
  · simp only [h, ha, if_true, if_false]
    simp [h0, Tcp.socketAnswer, Platform.counting]
  by_cases hb : (Tcp.bindAnswer P c.inner hostip port).1 = HELIFE_NET_SOCKET_ERROR
  · simp only [h, ha, hb, if_true, if_false]
    simp [h0, Tcp.socketAnswer, Tcp.bindAnswer, Tcp.bindAddress, Platform.counting]
  by_cases hl : (Tcp.listenAnswer P c.inner hostip port maxBacklog).1 = HELIFE_NET_SOCKET_ERROR
  · simp only [h, ha, hb, hl, if_true, if_false]
    simp [h0, Tcp.socketAnswer, Tcp.bindAnswer, Tcp.bindAddress, Tcp.listenAnswer,
      Platform.counting]
  · simp only [h, ha, hb, hl, if_false]
    simp [h0, Tcp.socketAnswer, Tcp.bindAnswer, Tcp.bindAddress, Tcp.listenAnswer,
      Platform.counting]

/-- C4. The platform's `close` is invoked exactly once per successfully
created handle and on that handle.  Seen from the platform: the state at the
end of a `Tcp` lifetime (construction, and destruction when construction
succeeded) is the state the last set-up call left when `socket` failed, and
otherwise `P.close` applied once, to the created handle, to the state the last
set-up call left; a platform that counts ends with its list of closed handles
equal to its list of created handles, empty when `socket` failed and the
created handle alone otherwise.  Seen from the log: no `close` when `socket`
fails, one `close` of the created handle during unwinding on `InvalidIp`,
`BindError` and `ListenError`, and after a successful construction none by
the constructor and one by the destructor. -/
theorem Tcp_lifetime_closes_created_handle_once {σ : Type} (P : Platform σ) (s : σ)
    (hostip : String) (port maxBacklog : Nat) :
    closedHandles (Tcp.lifetime P s hostip port maxBacklog).log =
      createdHandles (Tcp.lifetime P s hostip port maxBacklog).log
    ∧ (closedHandles (Tcp.lifetime P s hostip port maxBacklog).log).length =
        (createdHandles (Tcp.lifetime P s hostip port maxBacklog).log).length
    ∧ createdHandles (Tcp.lifetime P s hostip port maxBacklog).log =
        (if (Tcp.socketAnswer P s).1 = HELIFE_NET_INVALID_SOCKET then []
         else [(Tcp.socketAnswer P s).1])
    ∧ closedHandles (Tcp.construct P s hostip port maxBacklog).log =
        (if (Tcp.socketAnswer P s).1 = HELIFE_NET_INVALID_SOCKET then []
         else if P.inet_addr hostip = 0
            ∨ (Tcp.bindAnswer P s hostip port).1 = HELIFE_NET_SOCKET_ERROR
            ∨ (Tcp.listenAnswer P s hostip port maxBacklog).1 = HELIFE_NET_SOCKET_ERROR
           then [(Tcp.socketAnswer P s).1]
         else [])
    ∧ (match built (Tcp.construct P s hostip port maxBacklog).val with
        | some tcp => (Tcp.destroy P (Tcp.construct P s hostip port maxBacklog).os tcp).log
        | none => []) =
        (if (Tcp.socketAnswer P s).1 ≠ HELIFE_NET_INVALID_SOCKET
            ∧ P.inet_addr hostip ≠ 0
            ∧ (Tcp.bindAnswer P s hostip port).1 ≠ HELIFE_NET_SOCKET_ERROR
            ∧ (Tcp.listenAnswer P s hostip port maxBacklog).1 ≠ HELIFE_NET_SOCKET_ERROR
         then [Event.close (Tcp.socketAnswer P s).1]
         else [])
    ∧ (Tcp.lifetime P s hostip port maxBacklog).os =
        (if (Tcp.socketAnswer P s).1 = HELIFE_NET_INVALID_SOCKET then (Tcp.socketAnswer P s).2
         else if P.inet_addr hostip = 0 then
           P.close (Tcp.socketAnswer P s).2 (Tcp.socketAnswer P s).1
         else if (Tcp.bindAnswer P s hostip port).1 = HELIFE_NET_SOCKET_ERROR then
           P.close (Tcp.bindAnswer P s hostip port).2 (Tcp.socketAnswer P s).1
         else
           P.close (Tcp.listenAnswer P s hostip port maxBacklog).2 (Tcp.socketAnswer P s).1)
    ∧ (match built (Tcp.construct P s hostip port maxBacklog).val with
        | some tcp => (Tcp.destroy P (Tcp.construct P s hostip port maxBacklog).os tcp).os
        | none => (Tcp.construct P s hostip port maxBacklog).os) =
        (Tcp.lifetime P s hostip port maxBacklog).os
    ∧ (Tcp.lifetime P.counting ⟨s, [], []⟩ hostip port maxBacklog).os.closed =
        (Tcp.lifetime P.counting ⟨s, [], []⟩ hostip port maxBacklog).os.created
    ∧ (Tcp.lifetime P.counting ⟨s, [], []⟩ hostip port maxBacklog).os.closed =
        (if (Tcp.socketAnswer P s).1 = HELIFE_NET_INVALID_SOCKET then []
         else [(Tcp.socketAnswer P s).1])
    ∧ (Tcp.lifetime P.counting ⟨s, [], []⟩ hostip port maxBacklog).os.closed =
        closedHandles (Tcp.lifetime P s hostip port maxBacklog).log := by
  have key := Tcp.lifetime_log P s hostip port maxBacklog
  have hc := Tcp.lifetime_counting P ⟨s, [], []⟩ hostip port maxBacklog
  simp only [List.nil_append] at hc
  refine ⟨key.1, by rw [key.1], key.2.1, key.2.2.1, key.2.2.2, ?_, ?_, ?_, hc.2.1, ?_⟩
  · rw [Tcp.lifetime_os_log P s]
    split_ifs <;> rfl
  · simp only [Tcp.lifetime]
    cases hv : (Tcp.construct P s hostip port maxBacklog).val <;> simp [built]
  · rw [hc.1, hc.2.1]
  · rw [hc.2.1, key.1, key.2.1]

/-! ## Error messages -/

/-- The error text is lost when `strerror_r` does not write to the buffer.  On
a platform whose `strerror_r` leaves the buffer untouched (it returns the text
instead, and the header drops the return value) and whose unwritten buffer
holds the empty string, the `BindError` and `SocketError` messages are the
fixed texts alone. -/
theorem Tcp_message_with_unwritten_buffer :
    raisedWhat (Tcp.construct (scriptedPlatformUnwritten (fun _ => 3) (-1) 0 "") 0
        "127.0.0.1" 8080 5).val = some "Could not bind Server Socket TCP (ipv4): "
    ∧ raisedWhat (Tcp.construct (scriptedPlatformUnwritten (fun _ => -1) 0 0 "") 0
        "127.0.0.1" 8080 5).val = some "Could not intialize socket: " := by
  refine ⟨by decide, by decide⟩

theorem Libc.inet_addr_any (littleEndian : Bool) : Libc.inet_addr littleEndian "0.0.0.0" = 0 := by
  cases littleEndian <;> decide

/-- C7. When socket creation succeeds and the platform parses addresses as
the C library does, `Tcp("0.0.0.0", 8080, 5)` throws `InvalidIp`, because
"0.0.0.0" parses to zero; these are the default arguments, so `Tcp()` throws
`InvalidIp` too; and so does `Tcp("0.0.0.0", port, maxBacklog)` for every
port and backlog, with no `bind` and no `listen` call. -/
theorem Tcp_default_arguments_raise_InvalidIp {σ : Type} (P : Platform σ) (s : σ)
    (port maxBacklog : Nat)
    (hs : (Tcp.socketAnswer P s).1 ≠ HELIFE_NET_INVALID_SOCKET)
    (hp : P.inet_addr "0.0.0.0" = Libc.inet_addr P.littleEndian "0.0.0.0") :
    P.inet_addr "0.0.0.0" = 0
    ∧ raisedKind (Tcp.construct P s "0.0.0.0" 8080 5).val = some ErrorKind.InvalidIp
    ∧ (Tcp.defaultHostip = "0.0.0.0" ∧ Tcp.defaultPort = 8080 ∧ Tcp.defaultMaxBacklog = 5)
    ∧ raisedKind (Tcp.construct P s Tcp.defaultHostip Tcp.defaultPort
        Tcp.defaultMaxBacklog).val = some ErrorKind.InvalidIp
    ∧ raisedKind (Tcp.construct P s "0.0.0.0" port maxBacklog).val = some ErrorKind.InvalidIp
    ∧ bindCalls (Tcp.construct P s "0.0.0.0" port maxBacklog).log = []
    ∧ listenCalls (Tcp.construct P s "0.0.0.0" port maxBacklog).log = [] := by
  have ha : P.inet_addr "0.0.0.0" = 0 := by rw [hp, Libc.inet_addr_any]
  have hk : ∀ p b : Nat,
      raisedKind (Tcp.construct P s "0.0.0.0" p b).val = some ErrorKind.InvalidIp := by
    intro p b
    rw [Tcp.construct_invalid_ip P s "0.0.0.0" p b hs ha]
    rfl
  refine ⟨ha, hk 8080 5, ⟨rfl, rfl, rfl⟩, hk 8080 5, hk port maxBacklog, ?_, ?_⟩
  · rw [Tcp.construct_invalid_ip P s "0.0.0.0" port maxBacklog hs ha]
    simp [Tcp.setupSteps, bindCalls]
  · rw [Tcp.construct_invalid_ip P s "0.0.0.0" port maxBacklog hs ha]
    simp [Tcp.setupSteps, listenCalls]

/-- C7, witness: a platform on which `socket` returns 3 and addresses are
parsed by the C library, port 443, backlog 128. -/
theorem Tcp_default_arguments_raise_InvalidIp_witness :
    (Tcp.socketAnswer (scriptedPlatform (fun _ => 3) 0 0 "") 0).1 ≠ HELIFE_NET_INVALID_SOCKET
    ∧ raisedKind (Tcp.construct (scriptedPlatform (fun _ => 3) 0 0 "") 0
        "0.0.0.0" 443 128).val = some ErrorKind.InvalidIp
    ∧ bindCalls (Tcp.construct (scriptedPlatform (fun _ => 3) 0 0 "") 0
        "0.0.0.0" 443 128).log = [] :=
  ⟨by decide,
   (Tcp_default_arguments_raise_InvalidIp (scriptedPlatform (fun _ => 3) 0 0 "") 0 443 128
      (by decide) rfl).2.2.2.2.1,
   (Tcp_default_arguments_raise_InvalidIp (scriptedPlatform (fun _ => 3) 0 0 "") 0 443 128
      (by decide) rfl).2.2.2.2.2.1⟩

/-- C3, the code at a malformed address.  The C library's `inet_addr` turns
"not-an-ip" into `INADDR_NONE` (all ones), which is not zero, so the
constructor does not throw `InvalidIp`: it goes on to `bind` with the address
255.255.255.255, throws `BindError` when `bind` refuses, and succeeds when
`bind` and `listen` accept. -/
theorem Tcp_malformed_address_not_InvalidIp :
    Libc.inet_addr true "not-an-ip" = Libc.INADDR_NONE
    ∧ raisedKind (Tcp.construct (scriptedPlatform (fun _ => 3) (-1) 0
        "Cannot assign requested address") 0 "not-an-ip" 8080 5).val
        = some ErrorKind.BindError
    ∧ raisedKind (Tcp.construct (scriptedPlatform (fun _ => 3) 0 0 "") 0
        "not-an-ip" 8080 5).val = none
    ∧ bindCalls (Tcp.construct (scriptedPlatform (fun _ => 3) 0 0 "") 0
        "not-an-ip" 8080 5).log = [(3, ⟨2, 36895, 4294967295⟩, 16)] := by
  refine ⟨by decide, by decide, by decide, by decide⟩

/-! ## Arguments handed to `bind` and `listen` -/

/-- C8, counterexample.  With `maxBacklog = 4294967295` the integer handed to
`listen` is `-1`, not 4294967295. -/
theorem Tcp_listen_backlog_wraps_negative :
    listenCalls (Tcp.construct (scriptedPlatform (fun _ => 3) 0 0 "") 0
        "127.0.0.1" 8080 4294967295).log = [(3, -1)]
    ∧ ((-1 : Int) ≠ ((4294967295 : Nat) : Int)) := by
  refine ⟨by decide, by decide⟩

/-- C8, as amended.  For every `maxBacklog` in the unsigned 32-bit range,
when construction reaches the `listen` step, `listen` is called once, on the
created handle, with `maxBacklog` converted to `int`: that is `maxBacklog`
itself when `maxBacklog < 2^31` and `maxBacklog - 2^32` otherwise; the two
are equal exactly when `maxBacklog < 2^31`, and always congruent modulo
`2^32`. -/
theorem Tcp_listen_backlog_converted {σ : Type} (P : Platform σ) (s : σ)
    (hostip : String) (port maxBacklog : Nat) (hb : maxBacklog < 4294967296) :
    listenCalls (Tcp.construct P s hostip port maxBacklog).log =
        (if (Tcp.socketAnswer P s).1 = HELIFE_NET_INVALID_SOCKET ∨ P.inet_addr hostip = 0
            ∨ (Tcp.bindAnswer P s hostip port).1 = HELIFE_NET_SOCKET_ERROR then []
         else [((Tcp.socketAnswer P s).1, toInt32 maxBacklog)])
    ∧ toInt32 maxBacklog =
        (if maxBacklog < 2147483648 then (maxBacklog : Int)
         else (maxBacklog : Int) - 4294967296)
    ∧ (toInt32 maxBacklog = (maxBacklog : Int) ↔ maxBacklog < 2147483648)
    ∧ toInt32 maxBacklog % 4294967296 = (maxBacklog : Int)
    ∧ toInt32 0 = 0 ∧ toInt32 Tcp.defaultMaxBacklog = 5 := by
  have hm : maxBacklog % 4294967296 = maxBacklog := Nat.mod_eq_of_lt hb
  have hconv : toInt32 maxBacklog =
      (if maxBacklog < 2147483648 then (maxBacklog : Int)
       else (maxBacklog : Int) - 4294967296) := by
    simp only [toInt32, hm]
  refine ⟨(Tcp.construct_bind_listen_calls P s hostip port maxBacklog).2, hconv, ?_, ?_,
    by decide, by decide⟩
  · rw [hconv]
    split_ifs with h
    · simp [h]
    · constructor
      · intro h2; omega
      · intro h2; omega
  · rw [hconv]
    split_ifs with h <;> omega

/-- C8, witness at `maxBacklog = 5` on a platform where every step
succeeds. -/
theorem Tcp_listen_backlog_converted_witness :
    (5 : Nat) < 4294967296
    ∧ listenCalls (Tcp.construct (scriptedPlatform (fun _ => 3) 0 0 "") 0
        "127.0.0.1" 8080 5).log = [(3, 5)] :=
  ⟨by decide,
   ((Tcp_listen_backlog_converted (scriptedPlatform (fun _ => 3) 0 0 "") 0
      "127.0.0.1" 8080 5 (by decide)).1).trans (by decide)⟩

/-- C9. For every 16-bit port, the address structure handed to `bind` (when
`bind` is reached: the socket exists and the parsed address is not zero) has
family IPv4, address the parse result of `hostip`, and a port field whose two
bytes in memory are `[port / 256, port % 256]`; on a little-endian host the
stored value is the byte swap of `port`, and converting it back gives
`port`. -/
theorem Tcp_bind_address_port_network_order {σ : Type} (P : Platform σ) (s : σ)
    (hostip : String) (port maxBacklog : Nat) (hp : port < 65536) :
    bindCalls (Tcp.construct P s hostip port maxBacklog).log =
        (if (Tcp.socketAnswer P s).1 = HELIFE_NET_INVALID_SOCKET ∨ P.inet_addr hostip = 0 then []
         else [((Tcp.socketAnswer P s).1, Tcp.bindAddress P hostip port, sizeofSockaddrIn)])
    ∧ (Tcp.bindAddress P hostip port).sin_family = 2
    ∧ (Tcp.bindAddress P hostip port).s_addr = P.inet_addr hostip
    ∧ memBytes16 P.littleEndian (Tcp.bindAddress P hostip port).sin_port =
        [port / 256, port % 256]
    ∧ (Tcp.bindAddress P hostip port).sin_port =
        (if P.littleEndian = true then (port % 256) * 256 + port / 256 else port)
    ∧ ntohs P.littleEndian (Tcp.bindAddress P hostip port).sin_port = port := by
  have hq : port / 256 < 256 := by omega
  have hx : port % 256 < 256 := Nat.mod_lt _ (by decide)
  have hy : port / 256 % 256 = port / 256 := Nat.mod_eq_of_lt hq
  have hm : port % 65536 = port := Nat.mod_eq_of_lt hp
  have h1 : (port % 256 * 256 + port / 256) / 256 = port % 256 := by omega
  have h2 : (port % 256 * 256 + port / 256) % 256 = port / 256 := by omega
  have h3 : port / 256 * 256 + port % 256 = port := by omega
  refine ⟨(Tcp.construct_bind_listen_calls P s hostip port maxBacklog).1, rfl, rfl, ?_, ?_, ?_⟩
  · cases hle : P.littleEndian
    · simp [Tcp.bindAddress, memBytes16, htons, hle, hm, hy]
    · simp [Tcp.bindAddress, memBytes16, htons, hle, hy, h1, h2]
  · cases hle : P.littleEndian
    · simp [Tcp.bindAddress, htons, hle, hm]
    · simp [Tcp.bindAddress, htons, hle, hy]
  · cases hle : P.littleEndian
    · simp [Tcp.bindAddress, ntohs, htons, hle, hm]
    · simp [Tcp.bindAddress, ntohs, htons, hle, hy, h1, h2, h3]

/-- C9, witness at port 8080 (0x1F90) on a little-endian platform where socket
creation succeeds: the bytes are 0x1F, 0x90 and the stored value is
0x901F. -/
theorem Tcp_bind_address_port_network_order_witness :
    (8080 : Nat) < 65536
    ∧ memBytes16 true (Tcp.bindAddress (scriptedPlatform (fun _ => 3) 0 0 "")
        "127.0.0.1" 8080).sin_port = [31, 144]
    ∧ bindCalls (Tcp.construct (scriptedPlatform (fun _ => 3) 0 0 "") 0
        "127.0.0.1" 8080 5).log = [(3, ⟨2, 36895, 16777343⟩, 16)] :=
  ⟨by decide,
   (Tcp_bind_address_port_network_order (scriptedPlatform (fun _ => 3) 0 0 "") 0
      "127.0.0.1" 8080 5 (by decide)).2.2.2.1,
   ((Tcp_bind_address_port_network_order (scriptedPlatform (fun _ => 3) 0 0 "") 0
      "127.0.0.1" 8080 5 (by decide)).1).trans (by decide)⟩

/-! ## Ownership of handles by `Socket` objects -/

theorem closedHandles_append (l₁ l₂ : List Event) :
    closedHandles (l₁ ++ l₂) = closedHandles l₁ ++ closedHandles l₂ := by
  induction l₁ with
  | nil => rfl
  | cons e es ih => cases e <;> simp [closedHandles, ih]

theorem createdHandles_append (l₁ l₂ : List Event) :
    createdHandles (l₁ ++ l₂) = createdHandles l₁ ++ createdHandles l₂ := by
  induction l₁ with
  | nil => rfl
  | cons e es ih =>
    cases e with
    | socket d t p ret =>
      by_cases h : ret = HELIFE_NET_INVALID_SOCKET <;> simp [createdHandles, ih, h]
    | inet_addr cp ret => simp [createdHandles, ih]
    | bind fd addr len ret => simp [createdHandles, ih]
    | listen fd backlog ret => simp [createdHandles, ih]
    | getLastError buflen text => simp [createdHandles, ih]
    | close fd => simp [createdHandles, ih]

theorem count_eraseIdx_of_get? (l : List Socket) (i : Nat) (sk : Socket) (h : Int)
    (hget : l.get? i = some sk) :
    ((l.eraseIdx i).map (fun x => x._sock)).count h + [sk._sock].count h =
      (l.map (fun x => x._sock)).count h := by
  induction l generalizing i with
  | nil => simp at hget
  | cons a as ih =>
    cases i with
    | zero =>
      simp only [List.get?_cons_zero, Option.some.injEq] at hget
      subst hget
      simp only [List.eraseIdx_cons_zero, List.map_cons, List.count_cons, List.count_nil]
      omega
    | succ k =>
      simp only [List.get?_cons_succ] at hget
      have := ih k hget
      simp only [List.eraseIdx_cons_succ, List.map_cons, List.count_cons, List.count_nil] at this ⊢
      omega

theorem SocketOp.step_balanced {σ : Type} (P : Platform σ) (w : SocketWorld σ) (op : SocketOp)
    (h : Int) (hop : op.isCopy = false) (hw : w.balanced h) :
    (SocketOp.step P w op).balanced h := by
  unfold SocketWorld.balanced SocketWorld.liveHandles at hw ⊢
  cases op with
  | construct domain type protocol =>
    by_cases hs : (P.socket w.os domain.toInt type.toInt protocol.toInt).1 =
        HELIFE_NET_INVALID_SOCKET
    · simp only [SocketOp.step, Socket.construct_invalid P w.os domain type protocol hs,
        closedHandles_append, createdHandles_append, List.count_append]
      simp [closedHandles, createdHandles, hs, hw]
    · simp only [SocketOp.step, Socket.construct_valid P w.os domain type protocol hs,
        closedHandles_append, createdHandles_append, List.count_append, List.map_append]
      simp only [closedHandles, createdHandles, hs, if_false, List.map_cons, List.map_nil,
        List.count_nil, List.count_append]
      omega
  | copy i => simp [SocketOp.isCopy] at hop
  | assign i j => simp [SocketOp.isCopy] at hop
  | read i =>
    cases hget : w.live.get? i with
    | none =>
      simp only [SocketOp.step, hget]
      exact hw
    | some sk =>
      simp only [SocketOp.step, hget, Socket.toHandle, set_same_of_get? w.live i sk hget]
      exact hw
  | destroy i =>
    cases hget : w.live.get? i with
    | none =>
      simp only [SocketOp.step, hget]
      exact hw
    | some sk =>
      have hc := count_eraseIdx_of_get? w.live i sk h hget
      simp only [SocketOp.step, hget, Socket.destroy, closedHandles_append,
        createdHandles_append, List.count_append, closedHandles, createdHandles,
        List.count_nil]
      omega

theorem SocketOp.run_balanced {σ : Type} (P : Platform σ) (ops : List SocketOp)
    (w : SocketWorld σ) (h : Int) (hops : ops.all (fun o => !o.isCopy) = true)
    (hw : w.balanced h) : (SocketOp.run P w ops).balanced h := by
  induction ops generalizing w with
  | nil => exact hw
  | cons op rest ih =>
    simp only [List.all_cons, Bool.and_eq_true, Bool.not_eq_true'] at hops
    exact ih (SocketOp.step P w op) hops.2 (SocketOp.step_balanced P w op h hops.1 hw)

/-- C5, counterexample.  `Socket` declares no copy constructor, so the
implicit one applies: after constructing one `Socket` (the platform returns
handle 3) and copying it, two live wrappers hold handle 3, and destroying
both calls `close(3)` twice although handle 3 was created once. -/
theorem Socket_copy_then_destroy_closes_twice :
    (SocketOp.run (scriptedPlatform (fun n => 3 + n) 0 0 "") ⟨0, [], []⟩
        [SocketOp.construct SocketDomain.Ipv4 SocketType.Stream SocketProtocol.Default,
         SocketOp.copy 0]).liveHandles = [3, 3]
    ∧ (SocketOp.run (scriptedPlatform (fun n => 3 + n) 0 0 "") ⟨0, [], []⟩
        [SocketOp.construct SocketDomain.Ipv4 SocketType.Stream SocketProtocol.Default,
         SocketOp.copy 0, SocketOp.destroy 0, SocketOp.destroy 0]).log =
        [Event.socket 2 1 0 3, Event.close 3, Event.close 3]
    ∧ (closedHandles (SocketOp.run (scriptedPlatform (fun n => 3 + n) 0 0 "") ⟨0, [], []⟩
        [SocketOp.construct SocketDomain.Ipv4 SocketType.Stream SocketProtocol.Default,
         SocketOp.copy 0, SocketOp.destroy 0, SocketOp.destroy 0]).log).count 3 = 2
    ∧ (createdHandles (SocketOp.run (scriptedPlatform (fun n => 3 + n) 0 0 "") ⟨0, [], []⟩
        [SocketOp.construct SocketDomain.Ipv4 SocketType.Stream SocketProtocol.Default,
         SocketOp.copy 0, SocketOp.destroy 0, SocketOp.destroy 0]).log).count 3 = 1 := by
  refine ⟨by decide, by decide, by decide, by decide⟩

/-- C5, as amended.  Starting with no `Socket` objects, after any sequence
of constructions, reads of the raw handle and destructions that contains no
copy, for every handle `h` the number of `close(h)` calls plus the number of
live wrappers holding `h` equals the number of successful creations that
returned `h`; so `h` is never closed more often than it was created, and
destroying a wrapper closes its handle once. -/
theorem Socket_ops_without_copy_balanced {σ : Type} (P : Platform σ) (s : σ)
    (ops : List SocketOp) (h : Int) (hops : ops.all (fun o => !o.isCopy) = true) :
    (closedHandles (SocketOp.run P ⟨s, [], []⟩ ops).log).count h
        + (SocketOp.run P ⟨s, [], []⟩ ops).liveHandles.count h
      = (createdHandles (SocketOp.run P ⟨s, [], []⟩ ops).log).count h
    ∧ (closedHandles (SocketOp.run P ⟨s, [], []⟩ ops).log).count h
      ≤ (createdHandles (SocketOp.run P ⟨s, [], []⟩ ops).log).count h := by
  have hb : (SocketOp.run P ⟨s, [], []⟩ ops).balanced h :=
    SocketOp.run_balanced P ops ⟨s, [], []⟩ h hops (by
      simp [SocketWorld.balanced, SocketWorld.liveHandles, closedHandles, createdHandles])
  unfold SocketWorld.balanced at hb
  exact ⟨hb, by omega⟩

/-- C5, witness: two sockets constructed (handles 3 and 4), the first read
and then destroyed; handle 3 has been closed once and has no owner left,
handle 4 is still owned. -/
theorem Socket_ops_without_copy_balanced_witness :
    ([SocketOp.construct SocketDomain.Ipv4 SocketType.Stream SocketProtocol.Default,
      SocketOp.construct SocketDomain.Ipv6 SocketType.Datagrams SocketProtocol.Default,
      SocketOp.read 0, SocketOp.destroy 0].all (fun o => !o.isCopy) = true)
    ∧ (closedHandles (SocketOp.run (scriptedPlatform (fun n => 3 + n) 0 0 "") ⟨0, [], []⟩
        [SocketOp.construct SocketDomain.Ipv4 SocketType.Stream SocketProtocol.Default,
         SocketOp.construct SocketDomain.Ipv6 SocketType.Datagrams SocketProtocol.Default,
         SocketOp.read 0, SocketOp.destroy 0]).log).count 3
      ≤ (createdHandles (SocketOp.run (scriptedPlatform (fun n => 3 + n) 0 0 "") ⟨0, [], []⟩
        [SocketOp.construct SocketDomain.Ipv4 SocketType.Stream SocketProtocol.Default,
         SocketOp.construct SocketDomain.Ipv6 SocketType.Datagrams SocketProtocol.Default,
         SocketOp.read 0, SocketOp.destroy 0]).log).count 3
    ∧ (SocketOp.run (scriptedPlatform (fun n => 3 + n) 0 0 "") ⟨0, [], []⟩
        [SocketOp.construct SocketDomain.Ipv4 SocketType.Stream SocketProtocol.Default,
         SocketOp.construct SocketDomain.Ipv6 SocketType.Datagrams SocketProtocol.Default,
         SocketOp.read 0, SocketOp.destroy 0]).log =
        [Event.socket 2 1 0 3, Event.socket 10 2 0 4, Event.close 3] :=
  ⟨by decide,
   (Socket_ops_without_copy_balanced (scriptedPlatform (fun n => 3 + n) 0 0 "") 0
      [SocketOp.construct SocketDomain.Ipv4 SocketType.Stream SocketProtocol.Default,
       SocketOp.construct SocketDomain.Ipv6 SocketType.Datagrams SocketProtocol.Default,
       SocketOp.read 0, SocketOp.destroy 0] 3 (by decide)).2,
   by decide⟩

end hnet
